import Mathlib

set_option maxRecDepth 4000

/-!
Shallow embedding of src/app.py (Agentic Interviewer) and verification of the
frozen specification claims.  The Python helpers operating on strings are
modelled over `List Char` / `String`; the Streamlit UI calls are modelled only
through the values they compute and the event traces of external calls.
-/

/-- Characters stripped by Python `str.strip()` and matched by `\s`
(ASCII range: space, tab, newline, carriage return, vertical tab, form feed). -/
def isPySpace (c : Char) : Bool :=
  c == ' ' || c == '\t' || c == '\n' || c == '\r' || c == Char.ofNat 11 || c == Char.ofNat 12

/-- Python `str.strip()` on a character list: drop whitespace from both ends. -/
def pyStripL (l : List Char) : List Char :=
  ((l.dropWhile isPySpace).reverse.dropWhile isPySpace).reverse

/-- Python `str.strip()`. -/
def pyStrip (s : String) : String := ⟨pyStripL s.data⟩

/-- Python `str.strip('"')` on a character list: drop every leading and
trailing double-quote character (not just one outer pair). -/
def stripQuoteL (l : List Char) : List Char :=
  ((l.dropWhile (fun c => c == '"')).reverse.dropWhile (fun c => c == '"')).reverse

/-- Python `str.strip('"')` as used in `parse_questions_from_csv` (app.py:132). -/
def stripQuote (s : String) : String := ⟨stripQuoteL s.data⟩

/-- ASCII lower-casing of one character, as Python `str.lower()` does for ASCII. -/
def asciiLower (c : Char) : Char :=
  if 'A' ≤ c ∧ c ≤ 'Z' then Char.ofNat (c.toNat + 32) else c

/-- Python `str.lower()`. -/
def pyLower (s : String) : String := ⟨s.data.map asciiLower⟩

/-- Value of a digit string (used by the model of Python `int`). -/
def digitsVal (l : List Char) : Nat :=
  l.foldl (fun n c => n * 10 + (c.toNat - 48)) 0

/-- Continuation of a Python integer literal body: digits, with single
underscores allowed only between digits. -/
def pyIntBodyAux : List Char → Bool
  | [] => true
  | '_' :: c :: rest => c.isDigit && pyIntBodyAux rest
  | c :: rest => c.isDigit && pyIntBodyAux rest

/-- Python integer literal body: one or more digits, single underscores
allowed between digits. -/
def pyIntBody : List Char → Bool
  | [] => false
  | c :: rest => c.isDigit && pyIntBodyAux rest

/-- Model of Python `int(s)`: strip whitespace, optional sign, then a decimal
digit body; anything else raises `ValueError`, modelled as `none`. -/
def pyInt? (s : String) : Option Int :=
  match pyStripL s.data with
  | [] => none
  | c :: rest =>
      if c = '-' then
        if pyIntBody rest then some (-(digitsVal (rest.filter Char.isDigit) : Int)) else none
      else if c = '+' then
        if pyIntBody rest then some ((digitsVal (rest.filter Char.isDigit) : Int)) else none
      else if pyIntBody (c :: rest) then
        some ((digitsVal ((c :: rest).filter Char.isDigit) : Int))
      else none

/-- The backtick character (written via its code point). -/
def backtick : Char := Char.ofNat 96

/-- Word characters matched by the regex class `\w` (ASCII): letters, digits, underscore. -/
def isWordChar (c : Char) : Bool := c.isAlphanum || c == '_'

/-- Model of `re.sub(r'```\w*\n?', '', raw_text)` (app.py:112) as a scanner:
in normal mode (`false`) every occurrence of three backticks switches to
skipping mode (`true`), which consumes the greedy `\w*` run and one optional
newline before resuming; everything outside a match is kept.  A new fence
beginning right where a match ends is also recognised, as the regex engine
resumes scanning at the end of each match. -/
def stripFencesAux : Bool → List Char → List Char
  | _, [] => []
  | false, c1 :: c2 :: c3 :: rest2 =>
      if c1 = backtick ∧ c2 = backtick ∧ c3 = backtick then stripFencesAux true rest2
      else c1 :: stripFencesAux false (c2 :: c3 :: rest2)
  | false, c1 :: rest => c1 :: stripFencesAux false rest
  | true, c1 :: c2 :: c3 :: rest2 =>
      if isWordChar c1 then stripFencesAux true (c2 :: c3 :: rest2)
      else if c1 = '\n' then stripFencesAux false (c2 :: c3 :: rest2)
      else if c1 = backtick ∧ c2 = backtick ∧ c3 = backtick then stripFencesAux true rest2
      else c1 :: stripFencesAux false (c2 :: c3 :: rest2)
  | true, c1 :: rest =>
      if isWordChar c1 then stripFencesAux true rest
      else if c1 = '\n' then stripFencesAux false rest
      else c1 :: stripFencesAux false rest

/-- Model of `re.sub(r'```\w*\n?', '', raw_text)` (app.py:112). -/
def stripFences (l : List Char) : List Char := stripFencesAux false l

/-- Model of Python `clean_text.split('\n')` (keeps empty segments). -/
def splitLines : List Char → List (List Char)
  | [] => [[]]
  | c :: rest =>
      if c = '\n' then [] :: splitLines rest
      else
        match splitLines rest with
        | [] => [[c]]
        | l :: ls => (c :: l) :: ls

/-- Model of `re.match(r'^\d+\s*,', line)` being non-`None` (app.py:118): the
line starts with one or more digits, then optional whitespace, then a comma. -/
def matchesDataRow (l : List Char) : Bool :=
  (!(l.takeWhile Char.isDigit).isEmpty) &&
    (((l.dropWhile Char.isDigit).dropWhile isPySpace).head? == some ',')

/-- Data-line extraction of `parse_questions_from_csv` (app.py:111-119):
strip markdown code fences, strip the text, split into lines, strip each
line, and keep only lines matching the leading digits-comma pattern. -/
def dataLinesOf (raw_text : String) : List (List Char) :=
  ((splitLines (pyStripL (stripFences raw_text.data))).map pyStripL).filter matchesDataRow

/-- States of the CSV reader automaton (Python `csv.reader`, default dialect,
`skipinitialspace=True`). -/
inductive CsvSt
  | startRecord
  | startField
  | inField
  | inQuoted
  | quoteInQuoted
deriving DecidableEq

/-- One pass of the Python `csv.reader` state machine over the remaining
input.  Accumulators: current field characters, current row fields, finished
rows.  Default dialect: delimiter `,`, quote char `"`, doubled quotes inside a
quoted field denote a literal quote, a stray character after a closing quote is
appended leniently, and a space right after a delimiter is skipped. -/
def csvAux : CsvSt → List Char → List Char → List String → List (List String) → List (List String)
  | .startRecord, [], _, _, rows => rows
  | .startRecord, c :: r, _f, _row, rows =>
      if c = '\n' then csvAux .startRecord r [] [] (rows ++ [[]])
      else if c = ' ' then csvAux .startField r [] [] rows
      else if c = ',' then csvAux .startField r [] [""] rows
      else if c = '"' then csvAux .inQuoted r [] [] rows
      else csvAux .inField r [c] [] rows
  | .startField, [], _, row, rows => rows ++ [row ++ [""]]
  | .startField, c :: r, f, row, rows =>
      if c = '\n' then csvAux .startRecord r [] [] (rows ++ [row ++ [""]])
      else if c = ' ' then csvAux .startField r f row rows
      else if c = ',' then csvAux .startField r [] (row ++ [""]) rows
      else if c = '"' then csvAux .inQuoted r [] row rows
      else csvAux .inField r [c] row rows
  | .inField, [], f, row, rows => rows ++ [row ++ [⟨f⟩]]
  | .inField, c :: r, f, row, rows =>
      if c = '\n' then csvAux .startRecord r [] [] (rows ++ [row ++ [⟨f⟩]])
      else if c = ',' then csvAux .startField r [] (row ++ [⟨f⟩]) rows
      else csvAux .inField r (f ++ [c]) row rows
  | .inQuoted, [], f, row, rows => rows ++ [row ++ [⟨f⟩]]
  | .inQuoted, c :: r, f, row, rows =>
      if c = '"' then csvAux .quoteInQuoted r f row rows
      else csvAux .inQuoted r (f ++ [c]) row rows
  | .quoteInQuoted, [], f, row, rows => rows ++ [row ++ [⟨f⟩]]
  | .quoteInQuoted, c :: r, f, row, rows =>
      if c = '"' then csvAux .inQuoted r (f ++ ['"']) row rows
      else if c = ',' then csvAux .startField r [] (row ++ [⟨f⟩]) rows
      else if c = '\n' then csvAux .startRecord r [] [] (rows ++ [row ++ [⟨f⟩]])
      else csvAux .inField r (f ++ [c]) row rows

/-- Model of `csv.reader(StringIO(text), skipinitialspace=True)` collected
into a list of rows. -/
def csvParseL (l : List Char) : List (List String) :=
  csvAux .startRecord l [] [] []

/-- The rows handed to the row loop of `parse_questions_from_csv`
(app.py:125-127): the kept data lines re-joined with newlines and parsed as
CSV. -/
def csvRows (raw_text : String) : List (List String) :=
  csvParseL (List.intercalate ['\n'] (dataLinesOf raw_text))

/-- One parsed interview-question record, as built by
`parse_questions_from_csv` (app.py:130-137); every field is present there. -/
structure ParsedQuestion where
  id : Int
  title : String
  question_text : String
  difficulty : String
  max_points : Int
  scoring_criteria : String
deriving DecidableEq, Repr

/-- Outcome of the per-row body of `parse_questions_from_csv` (app.py:127-139):
rows with fewer than 6 fields are skipped silently by the `if`, rows whose
integer fields fail `int()` hit the `except` branch and emit a warning, and
all other rows produce a record. -/
inductive RowOutcome
  | tooShort
  | malformed
  | ok (q : ParsedQuestion)
deriving DecidableEq, Repr

/-- The per-row conversion of `parse_questions_from_csv` (app.py:127-139). -/
def parseRow (row : List String) : RowOutcome :=
  if 6 ≤ row.length then
    match pyInt? (pyStrip (row.getD 0 "")), pyInt? (pyStrip (row.getD 4 "")) with
    | some i, some p =>
        RowOutcome.ok
          { id := i
            title := stripQuote (pyStrip (row.getD 1 ""))
            question_text := stripQuote (pyStrip (row.getD 2 ""))
            difficulty := stripQuote (pyStrip (row.getD 3 ""))
            max_points := p
            scoring_criteria := stripQuote (pyStrip (row.getD 5 "")) }
    | _, _ => RowOutcome.malformed
  else RowOutcome.tooShort

/-- Embedding of `parse_questions_from_csv` (app.py:104-141). -/
def parse_questions_from_csv (raw_text : String) : List ParsedQuestion :=
  if (dataLinesOf raw_text).isEmpty then []
  else
    (csvRows raw_text).filterMap (fun row =>
      match parseRow row with
      | RowOutcome.ok q => some q
      | _ => none)

/-- Number of `st.warning` messages emitted by `parse_questions_from_csv`
(app.py:139): one per row that enters the `except` branch. -/
def parseWarningCount (raw_text : String) : Nat :=
  if (dataLinesOf raw_text).isEmpty then 0
  else
    ((csvRows raw_text).filter (fun row =>
      match parseRow row with
      | RowOutcome.malformed => true
      | _ => false)).length

/-- The constant `DIFFICULTY_COLORS` (app.py:31-35). -/
def DIFFICULTY_COLORS : List (String × String) :=
  [("hard", "red"), ("medium", "orange"), ("easy", "green")]

/-- Python `dict.get(key, default)` over an association list. -/
def dictGet (d : List (String × String)) (k : String) (dflt : String) : String :=
  match d with
  | [] => dflt
  | (k2, v) :: t => if k2 = k then v else dictGet t k dflt

/-- Embedding of `get_difficulty_color` (app.py:144-146). -/
def get_difficulty_color (difficulty : String) : String :=
  dictGet DIFFICULTY_COLORS (pyLower difficulty) "gray"

/-- A question record as consumed by `display_question`: a Python dict whose
keys may be absent, read with `q.get(key, default)` (app.py:151-156). -/
structure Question where
  id : Option Int := none
  title : Option String := none
  question_text : Option String := none
  difficulty : Option String := none
  max_points : Option Int := none
  scoring_criteria : Option String := none
deriving DecidableEq, Repr

/-- Everything `display_question` renders for one card, plus the returned
point value (app.py:149-182). -/
structure QuestionCard where
  q_id : Int
  diff : String
  color : String
  pts : Int
  title : String
  text : String
  criteria : String
deriving DecidableEq, Repr

/-- Embedding of `display_question` (app.py:149-182): defaults for missing
keys, the inline difficulty-to-color mapping of lines 158-165, and the
returned `pts`. -/
def display_question (q : Question) (index : Nat) : QuestionCard :=
  let pts := q.max_points.getD 10
  let title := q.title.getD "Topic"
  let text := q.question_text.getD "..."
  let diff := pyStrip (q.difficulty.getD "Medium")
  let criteria := q.scoring_criteria.getD "No criteria provided"
  let q_id := q.id.getD ((index : Int) + 1)
  let diff_lower := pyLower diff
  let color :=
    if diff_lower = "easy" then "green"
    else if diff_lower = "hard" then "red"
    else "orange"
  { q_id := q_id, diff := diff, color := color, pts := pts,
    title := title, text := text, criteria := criteria }

/-- The score-accumulation loop of the results view (app.py:433-435):
`for idx, q in enumerate(questions): total_score += display_question(q, idx)`. -/
def totalScore (questions : List Question) : Int :=
  (questions.enum.map (fun iq => (display_question iq.2 iq.1).pts)).sum

/-- The phase-1 result shape parsed from the AI response (app.py:207-219). -/
structure CampaignContext where
  campaign_context : String
  job_description : String
deriving DecidableEq, Repr

/-- Embedding of `run_agentic_chain` (app.py:290-332).  External effects are
oracles: `init` is the outcome of `genai.configure` + `GenerativeModel`
construction (an exception is `Except.error`), `run_context_analysis` is the
phase-1 call returning `None` on failure, and `run_question_generation` is the
phase-2 call.  The `st.status` blocks only render progress and are omitted. -/
def run_agentic_chain {Model : Type} (init : Except String Model)
    (run_context_analysis : Model → Option CampaignContext)
    (run_question_generation : Model → CampaignContext → List Question) :
    Option CampaignContext × List Question :=
  match init with
  | Except.error _ => (none, [])
  | Except.ok model =>
      match run_context_analysis model with
      | none => (none, [])
      | some context_data => (some context_data, run_question_generation model context_data)

/-- Embedding of `extract_pdf_text` (app.py:91-101).  The oracle `readPdf`
models `PdfReader(BytesIO(file_content))` plus the per-page `extract_text()`
results (`none` models a page returning `None`); `Except.error` models any
exception, which the `except` branch converts to an empty string. -/
def extract_pdf_text (readPdf : Except String (List (Option String))) : String :=
  match readPdf with
  | Except.ok pages => pyStrip (String.join (pages.map (fun t => t.getD "")))
  | Except.error _ => ""

/-- The session-state cache keyed by `file_key` (app.py:388-430), as an
association list; insertion prepends, as a dict update would for lookups. -/
abbrev Cache := List (String × (Option CampaignContext × List Question))

/-- Dictionary lookup in the session-state cache. -/
def cacheLookup (c : Cache) (k : String) : Option (Option CampaignContext × List Question) :=
  match c with
  | [] => none
  | (k2, v) :: t => if k2 = k then some v else cacheLookup t k

/-- Model of `st.session_state[file_key] = value`. -/
def cacheInsert (c : Cache) (k : String) (v : Option CampaignContext × List Question) : Cache :=
  (k, v) :: c

/-- Model of `del st.session_state[file_key]` in the regenerate handler
(app.py:427-430). -/
def cacheErase (c : Cache) (k : String) : Cache :=
  c.filter (fun p => decide (p.1 ≠ k))

/-- External calls made during one pass of the upload flow. -/
inductive UploadEvent
  | extractCall
  | pipelineCall
deriving DecidableEq, Repr

/-- Result of one pass of the upload flow (app.py:388-406). -/
structure UploadOutcome where
  cache : Cache
  events : List UploadEvent
  halted : Bool
  shown : Option (Option CampaignContext × List Question)
deriving DecidableEq

/-- Embedding of the upload flow (app.py:388-406): if `file_key` is absent,
run extraction; if the text is non-empty (Python truthiness), run the chain
and store the result; otherwise report the error and `st.stop()`.  Then the
cached value for the key is read for display.  `events` records the external
calls made, `halted` whether `st.stop()` fired, and `shown` the value the
results view reads. -/
def uploadStep (cache : Cache) (file_key : String) (extract : Unit → String)
    (run_chain : String → Option CampaignContext × List Question) : UploadOutcome :=
  match cacheLookup cache file_key with
  | some v => { cache := cache, events := [], halted := false, shown := some v }
  | none =>
      let resume_text := extract ()
      if resume_text ≠ "" then
        let result := run_chain resume_text
        { cache := cacheInsert cache file_key result
          events := [UploadEvent.extractCall, UploadEvent.pipelineCall]
          halted := false
          shown := some result }
      else
        { cache := cache, events := [UploadEvent.extractCall], halted := true, shown := none }

/-- Sample blob of §8.1 of the spec: the two well-formed rows surrounded by a
narrative line, fenced code-block markers, and a blank line. -/
def sampleBlob : String :=
  "Here are your questions:\n```csv\n1,\"API Design\",\"Explain REST vs RPC\",\"Easy\",5,\"Looks for clarity\"\n\n2,\"Concurrency\",\"Explain a race condition\",\"Hard\",12,\"Looks for correct terminology\"\n```"

/-- Expected first record of `sampleBlob`. -/
def sampleQ1 : ParsedQuestion :=
  { id := 1, title := "API Design", question_text := "Explain REST vs RPC",
    difficulty := "Easy", max_points := 5, scoring_criteria := "Looks for clarity" }

/-- Expected second record of `sampleBlob`. -/
def sampleQ2 : ParsedQuestion :=
  { id := 2, title := "Concurrency", question_text := "Explain a race condition",
    difficulty := "Hard", max_points := 12, scoring_criteria := "Looks for correct terminology" }

/-- Blob with two valid rows and one row whose `id` field is not numeric. -/
def badIdBlob : String :=
  "1,\"A\",\"Q1\",\"Easy\",5,\"C1\"\nabc,\"B\",\"Q2\",\"Hard\",12,\"C2\"\n2,\"D\",\"Q3\",\"Medium\",8,\"C3\""

/-- Blob with two valid rows and one row whose `max_points` field is not
numeric (this one reaches the CSV stage and triggers the warning branch). -/
def badPtsBlob : String :=
  "1,\"A\",\"Q1\",\"Easy\",5,\"C1\"\n2,\"B\",\"Q2\",\"Hard\",oops,\"C2\"\n3,\"D\",\"Q3\",\"Medium\",8,\"C3\""

/-- Blob whose second field is the CSV encoding of a string whose own content
begins and ends with a double quote. -/
def quoteDemoBlob : String := "1,\"\"\"quoted\"\"\",q,Easy,5,c"

lemma head?_dropWhile_quote (l : List Char) :
    ((l.dropWhile (fun c => c == '"')).head?) ≠ some '"' := by
  induction l with
  | nil => simp
  | cons a t ih =>
      by_cases h : a = '"'
      · simpa [List.dropWhile_cons, h] using ih
      · simp [List.dropWhile_cons, h]

lemma stripQuoteL_head (l : List Char) : (stripQuoteL l).head? ≠ some '"' := by
  have hm := head?_dropWhile_quote l
  unfold stripQuoteL
  cases hr : ((l.dropWhile (fun c => c == '"')).reverse.dropWhile (fun c => c == '"')).reverse with
  | nil => simp
  | cons x xs =>
      have hsplit : ((l.dropWhile (fun c => c == '"')).reverse.dropWhile (fun c => c == '"')).reverse
          ++ ((l.dropWhile (fun c => c == '"')).reverse.takeWhile (fun c => c == '"')).reverse
          = l.dropWhile (fun c => c == '"') := by
        rw [← List.reverse_append, List.takeWhile_append_dropWhile, List.reverse_reverse]
      rw [hr] at hsplit
      rw [← hsplit] at hm
      simpa using hm

lemma stripQuoteL_last (l : List Char) : (stripQuoteL l).getLast? ≠ some '"' := by
  unfold stripQuoteL
  rw [← List.head?_reverse, List.reverse_reverse]
  exact head?_dropWhile_quote _

lemma stripQuote_head (s : String) : (stripQuote s).data.head? ≠ some '"' :=
  stripQuoteL_head _

lemma stripQuote_last (s : String) : (stripQuote s).data.getLast? ≠ some '"' :=
  stripQuoteL_last _

lemma cacheLookup_erase (c : Cache) (k : String) : cacheLookup (cacheErase c k) k = none := by
  induction c with
  | nil => rfl
  | cons p t ih =>
      obtain ⟨k2, v⟩ := p
      by_cases h : k2 = k
      · simpa [cacheErase, List.filter_cons, h] using ih
      · simpa [cacheErase, List.filter_cons, h, cacheLookup] using ih

lemma enumFrom_map_snd_apply {β : Type} (f : Question → β) :
    ∀ (l : List Question) (n : Nat),
      (List.enumFrom n l).map (fun iq => f iq.2) = l.map f := by
  intro l
  induction l with
  | nil => intro n; rfl
  | cons a t ih => intro n; simp [List.enumFrom, ih]

/-- C1 counterexample: the claim says an unrecognized difficulty string gets a
"gray" badge in `display_question`, but the inline mapping of app.py:158-165
colors every difficulty other than easy/hard — recognized or not — "orange". -/
theorem C1_counterexample :
    (display_question { difficulty := some "Unknown" } 0).color = "orange" ∧
    (display_question { difficulty := some "Unknown" } 0).color ≠ "gray" := by
  decide

/-- C1 (amended): in `display_question` the badge color is resolved
case-insensitively from the stripped difficulty string as easy->green and
hard->red, and every other difficulty string — including medium and every
unrecognized string — resolves to "orange" (not "gray"). -/
theorem C1_theorem : ∀ (q : Question) (i : Nat),
    (pyLower (pyStrip (q.difficulty.getD "Medium")) = "easy" →
      (display_question q i).color = "green") ∧
    (pyLower (pyStrip (q.difficulty.getD "Medium")) = "hard" →
      (display_question q i).color = "red") ∧
    (pyLower (pyStrip (q.difficulty.getD "Medium")) ≠ "easy" →
      pyLower (pyStrip (q.difficulty.getD "Medium")) ≠ "hard" →
      (display_question q i).color = "orange") := by
  intro q i
  have hc : (display_question q i).color =
      (if pyLower (pyStrip (q.difficulty.getD "Medium")) = "easy" then "green"
       else if pyLower (pyStrip (q.difficulty.getD "Medium")) = "hard" then "red"
       else "orange") := rfl
  refine ⟨fun h => ?_, fun h => ?_, fun h1 h2 => ?_⟩
  · rw [hc, h]
    decide
  · rw [hc, h]
    decide
  · rw [hc, if_neg h1, if_neg h2]

/-- C1 witness: the amended mapping at concrete difficulty strings. -/
theorem C1_witness :
    (display_question { difficulty := some "eAsY" } 0).color = "green" ∧
    (display_question { difficulty := some "HARD" } 1).color = "red" ∧
    (display_question { difficulty := some "Mystery" } 2).color = "orange" :=
  ⟨(C1_theorem _ 0).1 (by decide), (C1_theorem _ 1).2.1 (by decide),
   (C1_theorem _ 2).2.2 (by decide) (by decide)⟩

/-- C2: on the two well-formed sample rows wrapped in fences, narration and a
blank line, the parser returns exactly the two records in input order with
integers parsed and outer quotes stripped; the empty string yields no records;
any input whose cleaned lines contain no digit-prefixed data line yields no
records; and every line the parser keeps matches the digits-then-comma
pattern. -/
theorem C2_theorem :
    parse_questions_from_csv sampleBlob = [sampleQ1, sampleQ2] ∧
    parse_questions_from_csv "" = [] ∧
    (∀ raw : String, dataLinesOf raw = [] → parse_questions_from_csv raw = []) ∧
    (∀ (raw : String) (l : List Char), l ∈ dataLinesOf raw → matchesDataRow l = true) := by
  refine ⟨by decide, by decide, ?_, ?_⟩
  · intro raw h
    simp [parse_questions_from_csv, h]
  · intro raw l hl
    unfold dataLinesOf at hl
    exact (List.mem_filter.mp hl).2

/-- C2 witness: concrete discharges of the hypothesis-bearing parts. -/
theorem C2_witness :
    parse_questions_from_csv "Here is prose with no rows" = [] ∧
    matchesDataRow (String.data "1,x") = true :=
  ⟨C2_theorem.2.2.1 "Here is prose with no rows" (by decide),
   C2_theorem.2.2.2 "1,x" (String.data "1,x") (by decide)⟩

/-- C3: a parsed row with fewer than 6 fields is skipped silently; a row whose
`id` or `max_points` field fails integer parsing is skipped through the
warning branch; remaining well-formed rows are still converted (the parser is
a total function, so no fault propagates).  Concretely, two valid rows plus a
row with a non-numeric id yield exactly the two valid records with no warning
(that row already fails the data-line pattern), and a row with non-numeric
`max_points` is skipped with exactly one warning while both valid rows are
converted. -/
theorem C3_theorem :
    (∀ row : List String, row.length < 6 → parseRow row = RowOutcome.tooShort) ∧
    (∀ row : List String, 6 ≤ row.length →
      pyInt? (pyStrip (row.getD 0 "")) = none → parseRow row = RowOutcome.malformed) ∧
    (∀ row : List String, 6 ≤ row.length →
      pyInt? (pyStrip (row.getD 4 "")) = none → parseRow row = RowOutcome.malformed) ∧
    parse_questions_from_csv badIdBlob =
      [{ id := 1, title := "A", question_text := "Q1", difficulty := "Easy",
         max_points := 5, scoring_criteria := "C1" },
       { id := 2, title := "D", question_text := "Q3", difficulty := "Medium",
         max_points := 8, scoring_criteria := "C3" }] ∧
    parseWarningCount badIdBlob = 0 ∧
    parse_questions_from_csv badPtsBlob =
      [{ id := 1, title := "A", question_text := "Q1", difficulty := "Easy",
         max_points := 5, scoring_criteria := "C1" },
       { id := 3, title := "D", question_text := "Q3", difficulty := "Medium",
         max_points := 8, scoring_criteria := "C3" }] ∧
    parseWarningCount badPtsBlob = 1 := by
  refine ⟨?_, ?_, ?_, by decide, by decide, by decide, by decide⟩
  · intro row h
    unfold parseRow
    rw [if_neg (by omega)]
  · intro row h6 h0
    unfold parseRow
    rw [if_pos h6]
    rw [h0]
  · intro row h6 h4
    unfold parseRow
    rw [if_pos h6]
    rw [h4]
    cases pyInt? (pyStrip (row.getD 0 "")) <;> rfl

/-- C3 witness: concrete rows hitting each skip path. -/
theorem C3_witness :
    parseRow [] = RowOutcome.tooShort ∧
    parseRow ["x", "a", "b", "c", "5", "d"] = RowOutcome.malformed ∧
    parseRow ["1", "a", "b", "c", "x", "d"] = RowOutcome.malformed :=
  ⟨C3_theorem.1 [] (by decide),
   C3_theorem.2.1 ["x", "a", "b", "c", "5", "d"] (by decide) (by decide),
   C3_theorem.2.2.1 ["1", "a", "b", "c", "x", "d"] (by decide) (by decide)⟩

/-- C4: `run_agentic_chain` returns `(none, [])` immediately when client
initialization fails; when phase 1 returns `none` it returns `(none, [])` for
every possible phase-2 function (so phase 2 is never invoked: the result does
not depend on it); when phase 1 succeeds the phase-1 context is paired with
whatever phase 2 produces, regardless of that outcome. -/
theorem C4_theorem :
    (∀ (Model : Type) (e : String) (p1 : Model → Option CampaignContext)
       (p2 : Model → CampaignContext → List Question),
       run_agentic_chain (Except.error e) p1 p2 = (none, [])) ∧
    (∀ (Model : Type) (m : Model) (p1 : Model → Option CampaignContext)
       (p2 : Model → CampaignContext → List Question),
       p1 m = none → run_agentic_chain (Except.ok m) p1 p2 = (none, [])) ∧
    (∀ (Model : Type) (m : Model) (p1 : Model → Option CampaignContext)
       (p2 : Model → CampaignContext → List Question) (ctx : CampaignContext),
       p1 m = some ctx → run_agentic_chain (Except.ok m) p1 p2 = (some ctx, p2 m ctx)) := by
  refine ⟨fun _ _ _ _ => rfl, ?_, ?_⟩
  · intro Model m p1 p2 h
    have hok : run_agentic_chain (Except.ok m) p1 p2 =
        (match p1 m with
         | none => (none, [])
         | some context_data => (some context_data, p2 m context_data)) := rfl
    rw [hok, h]
  · intro Model m p1 p2 ctx h
    have hok : run_agentic_chain (Except.ok m) p1 p2 =
        (match p1 m with
         | none => (none, [])
         | some context_data => (some context_data, p2 m context_data)) := rfl
    rw [hok, h]

/-- C4 witness: the coordinator at concrete oracles. -/
theorem C4_witness :
    run_agentic_chain (Except.error "bad key") (fun _ : Unit => none) (fun _ _ => []) = (none, []) ∧
    run_agentic_chain (Except.ok ()) (fun _ : Unit => none)
      (fun _ _ => [({} : Question)]) = (none, []) ∧
    run_agentic_chain (Except.ok ()) (fun _ : Unit => some ⟨"ctx", "jd"⟩)
      (fun _ _ => []) = (some ⟨"ctx", "jd"⟩, []) :=
  ⟨C4_theorem.1 Unit "bad key" (fun _ => none) (fun _ _ => []),
   C4_theorem.2.1 Unit () (fun _ => none) (fun _ _ => [({} : Question)]) rfl,
   C4_theorem.2.2 Unit () (fun _ => some ⟨"ctx", "jd"⟩) (fun _ _ => []) ⟨"ctx", "jd"⟩ rfl⟩

/-- C5: `extract_pdf_text` maps every exception to the empty string instead of
propagating it; and in the upload flow, when the key is absent and extraction
yields the empty string, the flow halts (`st.stop`), no pipeline call is ever
made (the outcome does not depend on the chain function and its trace has no
pipeline event), and no cache entry is created for the key. -/
theorem C5_theorem :
    (∀ e : String, extract_pdf_text (Except.error e) = "") ∧
    (∀ (cache : Cache) (k : String) (extract : Unit → String)
       (chain chain2 : String → Option CampaignContext × List Question),
       cacheLookup cache k = none → extract () = "" →
       (uploadStep cache k extract chain).halted = true ∧
       UploadEvent.pipelineCall ∉ (uploadStep cache k extract chain).events ∧
       cacheLookup (uploadStep cache k extract chain).cache k = none ∧
       uploadStep cache k extract chain = uploadStep cache k extract chain2) := by
  refine ⟨fun _ => rfl, ?_⟩
  intro cache k extract chain chain2 h hx
  have hstep : ∀ ch : String → Option CampaignContext × List Question,
      uploadStep cache k extract ch =
        { cache := cache, events := [UploadEvent.extractCall], halted := true, shown := none } := by
    intro ch
    unfold uploadStep
    rw [h, hx]
    rfl
  refine ⟨by rw [hstep chain], ?_, ?_, by rw [hstep chain, hstep chain2]⟩
  · rw [hstep chain]
    show UploadEvent.pipelineCall ∉ [UploadEvent.extractCall]
    decide
  · rw [hstep chain]
    exact h

/-- C5 witness: a concrete failing extraction with an absent key. -/
theorem C5_witness :
    extract_pdf_text (Except.error "corrupt PDF") = "" ∧
    (uploadStep [] "results_cv.pdf" (fun _ => "") (fun _ => (none, []))).halted = true :=
  ⟨C5_theorem.1 "corrupt PDF",
   (C5_theorem.2 [] "results_cv.pdf" (fun _ => "") (fun _ => (none, []))
     (fun _ => (none, [])) rfl rfl).1⟩

/-- C6: when the key is absent and extraction succeeds, extraction and the
pipeline each run exactly once and the outcome — whatever it is, including a
failed one — is stored under the key and shown; when the key is present,
neither runs and the stored value is shown with the cache unchanged; the
regenerate action removes the entry for the key, so the next pass runs
extraction and the pipeline afresh. -/
theorem C6_theorem :
    (∀ (cache : Cache) (k : String) (extract : Unit → String)
       (chain : String → Option CampaignContext × List Question),
       cacheLookup cache k = none → extract () ≠ "" →
       (uploadStep cache k extract chain).events =
         [UploadEvent.extractCall, UploadEvent.pipelineCall] ∧
       cacheLookup (uploadStep cache k extract chain).cache k = some (chain (extract ())) ∧
       (uploadStep cache k extract chain).shown = some (chain (extract ()))) ∧
    (∀ (cache : Cache) (k : String) (v : Option CampaignContext × List Question)
       (extract : Unit → String) (chain : String → Option CampaignContext × List Question),
       cacheLookup cache k = some v →
       (uploadStep cache k extract chain).events = [] ∧
       (uploadStep cache k extract chain).cache = cache ∧
       (uploadStep cache k extract chain).shown = some v) ∧
    (∀ (cache : Cache) (k : String), cacheLookup (cacheErase cache k) k = none) ∧
    (∀ (cache : Cache) (k : String) (extract : Unit → String)
       (chain : String → Option CampaignContext × List Question),
       extract () ≠ "" →
       (uploadStep (cacheErase cache k) k extract chain).events =
         [UploadEvent.extractCall, UploadEvent.pipelineCall]) := by
  have hmiss : ∀ (cache : Cache) (k : String) (extract : Unit → String)
      (chain : String → Option CampaignContext × List Question),
      cacheLookup cache k = none → extract () ≠ "" →
      uploadStep cache k extract chain =
        { cache := cacheInsert cache k (chain (extract ()))
          events := [UploadEvent.extractCall, UploadEvent.pipelineCall]
          halted := false
          shown := some (chain (extract ())) } := by
    intro cache k extract chain h hx
    unfold uploadStep
    rw [h]
    simp only [if_pos hx]
  refine ⟨?_, ?_, fun cache k => cacheLookup_erase cache k, ?_⟩
  · intro cache k extract chain h hx
    rw [hmiss cache k extract chain h hx]
    refine ⟨rfl, ?_, rfl⟩
    show cacheLookup (cacheInsert cache k (chain (extract ()))) k = _
    simp [cacheInsert, cacheLookup]
  · intro cache k v extract chain h
    unfold uploadStep
    rw [h]
    exact ⟨rfl, rfl, rfl⟩
  · intro cache k extract chain hx
    rw [hmiss (cacheErase cache k) k extract chain (cacheLookup_erase cache k) hx]

/-- C6 witness: a miss that stores a failed outcome, a hit that runs
nothing, and a regenerate that clears the entry. -/
theorem C6_witness :
    (uploadStep [] "results_cv.pdf" (fun _ => "resume text") (fun _ => (none, []))).events =
      [UploadEvent.extractCall, UploadEvent.pipelineCall] ∧
    (uploadStep [("results_cv.pdf", (none, []))] "results_cv.pdf" (fun _ => "resume text")
      (fun _ => (none, []))).events = [] ∧
    cacheLookup (cacheErase [("results_cv.pdf", (none, []))] "results_cv.pdf")
      "results_cv.pdf" = none ∧
    (uploadStep (cacheErase [("results_cv.pdf", (none, []))] "results_cv.pdf") "results_cv.pdf"
      (fun _ => "resume text") (fun _ => (none, []))).events =
      [UploadEvent.extractCall, UploadEvent.pipelineCall] :=
  ⟨(C6_theorem.1 [] "results_cv.pdf" (fun _ => "resume text") (fun _ => (none, []))
      rfl (by decide)).1,
   (C6_theorem.2.1 [("results_cv.pdf", (none, []))] "results_cv.pdf" (none, [])
      (fun _ => "resume text") (fun _ => (none, [])) rfl).1,
   C6_theorem.2.2.1 [("results_cv.pdf", (none, []))] "results_cv.pdf",
   C6_theorem.2.2.2 [("results_cv.pdf", (none, []))] "results_cv.pdf"
      (fun _ => "resume text") (fun _ => (none, [])) (by decide)⟩

/-- The ten-point list of §8.11 of the spec, summing to 100. -/
def qlist100 : List Question :=
  [5, 8, 12, 10, 7, 9, 6, 15, 14, 14].map (fun p => { max_points := some p })

/-- The same list with the third record's `max_points` missing. -/
def qlistMissing : List Question :=
  [{ max_points := some 5 }, { max_points := some 8 }, { max_points := none },
   { max_points := some 10 }, { max_points := some 7 }, { max_points := some 9 },
   { max_points := some 6 }, { max_points := some 15 }, { max_points := some 14 },
   { max_points := some 14 }]

/-- C7: the displayed total is the sum over rendered cards of the value
returned by `display_question` — the record's `max_points`, or 10 when it is
missing; the sample list sums to 100, and the list with one missing record
totals 98 (the substituted 10 replacing 12), not a recomputed 100. -/
theorem C7_theorem :
    (∀ qs : List Question,
      totalScore qs = (qs.map (fun q => q.max_points.getD 10)).sum) ∧
    totalScore qlist100 = 100 ∧
    totalScore qlistMissing = 98 ∧
    totalScore qlistMissing ≠ 100 := by
  refine ⟨?_, by decide, by decide, by decide⟩
  intro qs
  show ((List.enumFrom 0 qs).map (fun iq => (display_question iq.2 iq.1).pts)).sum = _
  have hf : (fun iq : Nat × Question => (display_question iq.2 iq.1).pts) =
      (fun iq : Nat × Question => iq.2.max_points.getD 10) := rfl
  rw [hf, enumFrom_map_snd_apply (fun q => q.max_points.getD 10) qs 0]

/-- C8: `display_question` substitutes the documented defaults for missing
fields and returns the effective point value used. -/
theorem C8_theorem : ∀ (q : Question) (i : Nat),
    (q.max_points = none → (display_question q i).pts = 10) ∧
    (q.title = none → (display_question q i).title = "Topic") ∧
    (q.question_text = none → (display_question q i).text = "...") ∧
    (q.difficulty = none → (display_question q i).diff = "Medium") ∧
    (q.scoring_criteria = none → (display_question q i).criteria = "No criteria provided") ∧
    (q.id = none → (display_question q i).q_id = (i : Int) + 1) ∧
    (∀ p : Int, q.max_points = some p → (display_question q i).pts = p) := by
  intro q i
  refine ⟨fun h => ?_, fun h => ?_, fun h => ?_, fun h => ?_, fun h => ?_, fun h => ?_,
    fun p h => ?_⟩
  · show q.max_points.getD 10 = 10
    rw [h]
    rfl
  · show q.title.getD "Topic" = "Topic"
    rw [h]
    rfl
  · show q.question_text.getD "..." = "..."
    rw [h]
    rfl
  · show pyStrip (q.difficulty.getD "Medium") = "Medium"
    rw [h]
    decide
  · show q.scoring_criteria.getD "No criteria provided" = "No criteria provided"
    rw [h]
    rfl
  · show q.id.getD ((i : Int) + 1) = (i : Int) + 1
    rw [h]
    rfl
  · show q.max_points.getD 10 = p
    rw [h]
    rfl

/-- C8 witness: the fully-missing record and a record with explicit points. -/
theorem C8_witness :
    (display_question ({} : Question) 0).pts = 10 ∧
    (display_question ({} : Question) 0).title = "Topic" ∧
    (display_question ({} : Question) 0).text = "..." ∧
    (display_question ({} : Question) 0).diff = "Medium" ∧
    (display_question ({} : Question) 0).criteria = "No criteria provided" ∧
    (display_question ({} : Question) 0).q_id = 1 ∧
    (display_question ({ max_points := some 7 } : Question) 0).pts = 7 := by
  refine ⟨(C8_theorem {} 0).1 rfl, (C8_theorem {} 0).2.1 rfl, (C8_theorem {} 0).2.2.1 rfl,
    (C8_theorem {} 0).2.2.2.1 rfl, (C8_theorem {} 0).2.2.2.2.1 rfl, ?_,
    (C8_theorem { max_points := some 7 } 0).2.2.2.2.2.2 7 rfl⟩
  have h := (C8_theorem {} 0).2.2.2.2.2.1 rfl
  simpa using h

/-- C9: `get_difficulty_color` resolves the difficulty case-insensitively
through `DIFFICULTY_COLORS` — hard->red, medium->orange, easy->green — and
every other string falls back to "gray". -/
theorem C9_theorem :
    get_difficulty_color "Easy" = "green" ∧
    get_difficulty_color "EASY" = "green" ∧
    get_difficulty_color "hard" = "red" ∧
    get_difficulty_color "Medium" = "orange" ∧
    get_difficulty_color "Unknown" = "gray" ∧
    (∀ s : String, pyLower s = "easy" → get_difficulty_color s = "green") ∧
    (∀ s : String, pyLower s = "medium" → get_difficulty_color s = "orange") ∧
    (∀ s : String, pyLower s = "hard" → get_difficulty_color s = "red") ∧
    (∀ s : String, pyLower s ≠ "easy" → pyLower s ≠ "medium" → pyLower s ≠ "hard" →
      get_difficulty_color s = "gray") := by
  refine ⟨by decide, by decide, by decide, by decide, by decide, ?_, ?_, ?_, ?_⟩
  · intro s h
    unfold get_difficulty_color
    rw [h]
    decide
  · intro s h
    unfold get_difficulty_color
    rw [h]
    decide
  · intro s h
    unfold get_difficulty_color
    rw [h]
    decide
  · intro s h1 h2 h3
    unfold get_difficulty_color DIFFICULTY_COLORS
    unfold dictGet
    rw [if_neg (Ne.symm h3)]
    unfold dictGet
    rw [if_neg (Ne.symm h2)]
    unfold dictGet
    rw [if_neg (Ne.symm h1)]
    rfl

/-- C9 witness: the general case-insensitive clauses at concrete strings. -/
theorem C9_witness :
    get_difficulty_color "EaSy" = "green" ∧
    get_difficulty_color "mEdIuM" = "orange" ∧
    get_difficulty_color "HaRd" = "red" ∧
    get_difficulty_color "WeIrD" = "gray" :=
  ⟨C9_theorem.2.2.2.2.2.1 "EaSy" (by decide),
   C9_theorem.2.2.2.2.2.2.1 "mEdIuM" (by decide),
   C9_theorem.2.2.2.2.2.2.2.1 "HaRd" (by decide),
   C9_theorem.2.2.2.2.2.2.2.2 "WeIrD" (by decide) (by decide) (by decide)⟩

/-- C10: every record produced by `parse_questions_from_csv` has string
fields that neither begin nor end with a double-quote character, because the
row conversion applies `strip('"')` (all leading and trailing quotes, not one
outer pair) after CSV unquoting; consequently a field whose CSV-decoded
content legitimately begins and ends with a quote loses those quotes, as the
concrete blob demonstrates. -/
theorem C10_theorem :
    (∀ (raw : String) (q : ParsedQuestion), q ∈ parse_questions_from_csv raw →
      (q.title.data.head? ≠ some '"' ∧ q.title.data.getLast? ≠ some '"') ∧
      (q.question_text.data.head? ≠ some '"' ∧ q.question_text.data.getLast? ≠ some '"') ∧
      (q.difficulty.data.head? ≠ some '"' ∧ q.difficulty.data.getLast? ≠ some '"') ∧
      (q.scoring_criteria.data.head? ≠ some '"' ∧
        q.scoring_criteria.data.getLast? ≠ some '"')) ∧
    parse_questions_from_csv quoteDemoBlob =
      [{ id := 1, title := "quoted", question_text := "q", difficulty := "Easy",
         max_points := 5, scoring_criteria := "c" }] := by
  refine ⟨?_, by decide⟩
  intro raw q hq
  unfold parse_questions_from_csv at hq
  split at hq
  · simp at hq
  · rw [List.mem_filterMap] at hq
    obtain ⟨row, _, hrow⟩ := hq
    cases hpr : parseRow row with
    | tooShort => rw [hpr] at hrow; simp at hrow
    | malformed => rw [hpr] at hrow; simp at hrow
    | ok q2 =>
        rw [hpr] at hrow
        simp only [Option.some.injEq] at hrow
        subst hrow
        unfold parseRow at hpr
        split at hpr
        · split at hpr
          · simp only [RowOutcome.ok.injEq] at hpr
            subst hpr
            exact ⟨⟨stripQuote_head _, stripQuote_last _⟩,
              ⟨stripQuote_head _, stripQuote_last _⟩,
              ⟨stripQuote_head _, stripQuote_last _⟩,
              ⟨stripQuote_head _, stripQuote_last _⟩⟩
          · exact absurd hpr (by simp)
        · exact absurd hpr (by simp)

/-- C10 witness: the guarantee at the records of the sample blob. -/
theorem C10_witness :
    sampleQ1.title.data.head? ≠ some '"' ∧ sampleQ1.title.data.getLast? ≠ some '"' :=
  (C10_theorem.1 sampleBlob sampleQ1 (by decide)).1
